import Mathlib

/-!
Shallow embedding of the wifire temperature-completion estimator.

Source of truth: `src/exponential.go` (the `ExponentialPredictor`) and the
blending layer plus legacy heuristic in `src/cmd/root.go` (`status`,
`calculateProbeETA`) and the `monitor.Run` copy.

Modelling conventions:
* Go `float64` values are modelled as `ℚ` (the code only uses `+ - * /`,
  `abs`, `min`, `max` and comparisons on them; the transcendental calls
  `math.Exp` and `math.Log` are passed in as explicit function parameters
  `e`, `lg : ℚ → ℚ`, since the claims under verification never depend on
  analytic properties of the exponential/logarithm themselves).
* `time.Time` is modelled as `ℚ` seconds; `t.Sub(u).Seconds()` is `t - u`.
* `time.Duration` is modelled as `ℤ` nanoseconds.  Go's float-to-integer
  conversions truncate toward zero; every conversion site in the source
  converts a provably nonnegative value, so truncation is `Int.floor`.
* `math.Inf(1)` (used as the initial best error of the time-constant grid
  search and as the error of an empty window) is modelled by `Option ℚ`
  with `none` standing for +∞; `optLt`/`optLtScaled` mirror the float
  comparisons `x < y` and `x < 0.9*y` in the presence of +∞.
-/

namespace Wifire

/-- State of `ExponentialPredictor` (src/exponential.go lines 11-31).
Field defaults are Go zero values, so `NewExponentialPredictor` below can
set only the fields the Go constructor sets. -/
structure Predictor where
  targetTemp : ℚ := 0
  startTemp : ℚ := 0
  timeConstant : ℚ := 0
  startTime : ℚ := 0
  grillTemp : ℚ := 0
  grillSetTemp : ℚ := 0
  temperatures : List ℚ := []
  grillTemps : List ℚ := []
  grillSetTemps : List ℚ := []
  timestamps : List ℚ := []
  initialized : Bool := false
  minDataPoints : Nat := 0
deriving Repr, DecidableEq, Inhabited

/-- Constructor `NewExponentialPredictor` (src/exponential.go lines 34-39). -/
def NewExponentialPredictor : Predictor :=
  { minDataPoints := 3, initialized := false }

/-- Method `calculateEffectiveEquilibrium` (src/exponential.go lines 343-385).
The receiver is unused in the Go method, so it is a plain function here. -/
def calculateEffectiveEquilibrium (grillTemp grillSetTemp probeTarget : ℚ) : ℚ :=
  let grillDelta := grillTemp - probeTarget
  let effectiveEquilibrium :=
    if grillDelta > 50 then probeTarget + min (grillDelta * (1/10)) 10
    else if grillDelta > 20 then probeTarget + grillDelta * (2/10)
    else if grillDelta > 0 then probeTarget + grillDelta * (5/10)
    else grillTemp + max (grillDelta * (3/10)) (-20)
  let grillStability := 1 - |grillTemp - grillSetTemp| / 50
  let grillStability := if grillStability < 1/2 then 1/2 else grillStability
  probeTarget + (effectiveEquilibrium - probeTarget) * grillStability

/-- Method `predictAtTime` (src/exponential.go lines 297-309); `e` models `math.Exp`. -/
def predictAtTime (e : ℚ → ℚ) (ep : Predictor) (t tau : ℚ) : ℚ :=
  if ep.initialized = false then 0
  else
    let elapsed := t - ep.startTime
    if elapsed < 0 then ep.startTemp
    else ep.targetTemp - (ep.targetTemp - ep.startTemp) * e (-elapsed / tau)

/-- Method `predictAtTimeWithGrillDynamics` (src/exponential.go lines 312-340).
`dataIdx` is a Go `int`; every call site either passes an in-range index or
is guarded by the `initialized` check, so `ℕ` indexing with `getD` is exact. -/
def predictAtTimeWithGrillDynamics (e : ℚ → ℚ) (ep : Predictor) (t tau : ℚ) (dataIdx : ℕ) : ℚ :=
  if ep.initialized = false then 0
  else
    let elapsed := t - ep.startTime
    if elapsed < 0 then ep.startTemp
    else
      let grillTemp :=
        if dataIdx < ep.grillTemps.length then ep.grillTemps.getD dataIdx 0 else ep.grillTemp
      let grillSetTemp :=
        if dataIdx < ep.grillTemps.length then ep.grillSetTemps.getD dataIdx 0 else ep.grillSetTemp
      let effectiveEquilibrium := calculateEffectiveEquilibrium grillTemp grillSetTemp ep.targetTemp
      effectiveEquilibrium - (effectiveEquilibrium - ep.startTemp) * e (-elapsed / tau)

/-- Method `calculateErrorWithGrillDynamics` (src/exponential.go lines 277-294).
`none` models the `math.Inf(1)` returned for an empty window. -/
def calculateErrorWithGrillDynamics (e : ℚ → ℚ) (ep : Predictor) (tau : ℚ) (startIdx : ℕ) :
    Option ℚ :=
  let idxs := List.range' startIdx (ep.temperatures.length - startIdx)
  let count := idxs.length
  if count = 0 then none
  else
    let sumSquaredError :=
      (idxs.map (fun i =>
        let predicted := predictAtTimeWithGrillDynamics e ep (ep.timestamps.getD i 0) tau i
        let actual := ep.temperatures.getD i 0
        (predicted - actual) * (predicted - actual))).sum
    some (sumSquaredError / (count : ℚ))

/-- Float `<` where `none` is +∞: `Inf < y` is false, `x < Inf` is true for
finite `x` (src/exponential.go line 244, `error < bestError`). -/
def optLt : Option ℚ → Option ℚ → Bool
  | none, _ => false
  | some _, none => true
  | some a, some b => a < b

/-- Float `x < 0.9*y` where `none` is +∞ (src/exponential.go line 251):
`0.9 * Inf = Inf` in float arithmetic. -/
def optLtScaled : Option ℚ → Option ℚ → Bool
  | none, _ => false
  | some _, none => true
  | some a, some b => a < (9/10) * b

/-- One iteration of the grid-search loop body (src/exponential.go
lines 242-248): keep the candidate iff its error is strictly below the best
error so far. -/
def argminStep (f : ℚ → Option ℚ) (acc : ℚ × Option ℚ) (tau : ℚ) : ℚ × Option ℚ :=
  if optLt (f tau) acc.2 then (tau, f tau) else acc

/-- The values taken by the loop counter `for tau := 300.0; tau <= 28800.0;
tau += 300.0` (src/exponential.go line 242).  All iterates are integral
multiples of 300, which `float64` represents exactly, so the fuelled
recursion below reproduces the float loop exactly; fuel 200 exceeds the 96
iterations the loop performs. -/
def tauCandidatesAux : ℕ → ℚ → List ℚ
  | 0, _ => []
  | n + 1, tau => if tau ≤ 28800 then tau :: tauCandidatesAux n (tau + 300) else []

/-- The candidate time constants of the grid search. -/
def tauCandidates : List ℚ := tauCandidatesAux 200 300

/-- Method `estimateTimeConstant` (src/exponential.go lines 226-254). -/
def estimateTimeConstant (e : ℚ → ℚ) (ep : Predictor) : Predictor :=
  if ep.temperatures.length < ep.minDataPoints then ep
  else
    let startIdx := if ep.temperatures.length > 10 then ep.temperatures.length - 10 else 0
    let best := tauCandidates.foldl
      (argminStep (fun tau => calculateErrorWithGrillDynamics e ep tau startIdx))
      (ep.timeConstant, (none : Option ℚ))
    if optLtScaled best.2 (calculateErrorWithGrillDynamics e ep ep.timeConstant startIdx) then
      { ep with timeConstant := best.1 }
    else ep

/-- The record-and-evict part of `Update` on an initialized predictor
(src/exponential.go lines 61-78). -/
def updateRecord (ep : Predictor) (probeTemp timestamp probeTargetTemp grillTemp grillSetTemp : ℚ) :
    Predictor :=
  let ep1 : Predictor :=
    { ep with
      targetTemp := probeTargetTemp
      grillTemp := grillTemp
      grillSetTemp := grillSetTemp
      temperatures := ep.temperatures ++ [probeTemp]
      grillTemps := ep.grillTemps ++ [grillTemp]
      grillSetTemps := ep.grillSetTemps ++ [grillSetTemp]
      timestamps := ep.timestamps ++ [timestamp] }
  if ep1.temperatures.length > 20 then
    { ep1 with
      temperatures := ep1.temperatures.tail
      grillTemps := ep1.grillTemps.tail
      grillSetTemps := ep1.grillSetTemps.tail
      timestamps := ep1.timestamps.tail }
  else ep1

/-- Method `Update` (src/exponential.go lines 43-84). -/
def Update (e : ℚ → ℚ) (ep : Predictor)
    (probeTemp timestamp probeTargetTemp grillTemp grillSetTemp : ℚ) : Predictor :=
  if ep.initialized = false then
    { ep with
      startTemp := probeTemp
      targetTemp := probeTargetTemp
      grillTemp := grillTemp
      grillSetTemp := grillSetTemp
      startTime := timestamp
      temperatures := [probeTemp]
      grillTemps := [grillTemp]
      grillSetTemps := [grillSetTemp]
      timestamps := [timestamp]
      timeConstant := 3600
      initialized := true }
  else
    let ep1 := updateRecord ep probeTemp timestamp probeTargetTemp grillTemp grillSetTemp
    if ep1.minDataPoints ≤ ep1.temperatures.length then estimateTimeConstant e ep1 else ep1

/-- Method `getCurrentTemperature` (src/exponential.go lines 419-425). -/
def getCurrentTemperature (ep : Predictor) : ℚ :=
  if ep.initialized = false ∨ ep.temperatures.length = 0 then 0
  else ep.temperatures.getD (ep.temperatures.length - 1) 0

/-- Method `linearTimeToTarget` (src/exponential.go lines 388-416).  The result is
`ℤ` nanoseconds; `time.Duration(remaining/rate) * time.Second` truncates the
(positive) quotient to whole seconds before scaling. -/
def linearTimeToTarget (ep : Predictor) (targetTemp : ℚ) : ℤ :=
  if ep.temperatures.length < 2 then 0
  else
    let recentPoints := if ep.temperatures.length < 5 then ep.temperatures.length else 5
    let startIdx := ep.temperatures.length - recentPoints
    let timeDiff := ep.timestamps.getD (ep.timestamps.length - 1) 0 - ep.timestamps.getD startIdx 0
    let tempDiff :=
      ep.temperatures.getD (ep.temperatures.length - 1) 0 - ep.temperatures.getD startIdx 0
    if timeDiff ≤ 0 ∨ tempDiff ≤ 0 then 0
    else
      let rate := tempDiff / timeDiff
      let currentTemp := ep.temperatures.getD (ep.temperatures.length - 1) 0
      let remaining := targetTemp - currentTemp
      if remaining ≤ 0 then 0
      else ⌊remaining / rate⌋ * 1000000000

/-- Method `EstimateTimeToTarget` (src/exponential.go lines 95-164); `lg` models
`math.Log`.  `time.Duration(remaining * float64(time.Second))` truncates the
(nonnegative) value to whole nanoseconds. -/
def EstimateTimeToTarget (lg : ℚ → ℚ) (ep : Predictor) (targetTemp : ℚ) : ℤ :=
  if ep.initialized = false then 0
  else
    let currentTemp := getCurrentTemperature ep
    if currentTemp ≥ targetTemp then 0
    else
      let effectiveEquilibrium :=
        calculateEffectiveEquilibrium ep.grillTemp ep.grillSetTemp targetTemp
      if targetTemp > effectiveEquilibrium ∧ currentTemp ≥ effectiveEquilibrium then 0
      else
        let target1 := if targetTemp > effectiveEquilibrium then effectiveEquilibrium else targetTemp
        let numerator := target1 - effectiveEquilibrium
        let denominator := ep.startTemp - effectiveEquilibrium
        if |denominator| < 1/10 then linearTimeToTarget ep target1
        else
          let r := numerator / denominator
          if r ≤ 0 ∨ r ≥ 1 then linearTimeToTarget ep target1
          else
            let timeToTarget := -ep.timeConstant * lg r
            let currentTime := ep.timestamps.getD (ep.timestamps.length - 1) 0
            let elapsed := currentTime - ep.startTime
            let remaining := timeToTarget - elapsed
            let remaining := if remaining < 0 then 0 else remaining
            let remaining := if remaining > 8 * 3600 then 8 * 3600 else remaining
            ⌊remaining * 1000000000⌋

/-- Method `GetCurrentState` (src/exponential.go lines 167-180); `now` models the
wall-clock instant read by `time.Since`. -/
def GetCurrentState (e : ℚ → ℚ) (ep : Predictor) (now : ℚ) : ℚ × ℚ :=
  if ep.initialized = false then (0, 0)
  else
    let currentTemp := getCurrentTemperature ep
    let elapsed := now - ep.startTime
    let velocity := (ep.targetTemp - ep.startTemp) / ep.timeConstant * e (-elapsed / ep.timeConstant)
    (currentTemp, velocity)

/-- Method `GetUncertainty` (src/exponential.go lines 183-212).  The loop index `i`
runs over the Go ints `len-5 .. len-1`, skipping negative values. -/
def GetUncertainty (e : ℚ → ℚ) (ep : Predictor) : ℚ :=
  if ep.initialized = false ∨ ep.temperatures.length < 3 then 5
  else
    let n := ep.temperatures.length
    let recentErrors :=
      (((List.range 5).map (fun k : ℕ => (n : ℤ) - 5 + (k : ℤ))).filter
          (fun i => decide (0 ≤ i))).map
        (fun i =>
          let predicted := predictAtTime e ep (ep.timestamps.getD i.toNat 0) ep.timeConstant
          let actual := ep.temperatures.getD i.toNat 0
          |predicted - actual|)
    if recentErrors.length = 0 then 2
    else recentErrors.sum / (recentErrors.length : ℚ)

/-- Method `PredictTemperature` (src/exponential.go lines 87-92). -/
def PredictTemperature (e : ℚ → ℚ) (ep : Predictor) (futureTime : ℚ) : ℚ :=
  predictAtTimeWithGrillDynamics e ep futureTime ep.timeConstant (ep.temperatures.length - 1)

/-- Method `IsInitialized` (src/exponential.go lines 215-217). -/
def IsInitialized (ep : Predictor) : Bool := ep.initialized

/-- Method `GetTimeConstant` (src/exponential.go lines 220-222). -/
def GetTimeConstant (ep : Predictor) : ℚ := ep.timeConstant

/-- The fields of `wifire.Status` consumed by `calculateProbeETA` and the
blending layer (src/unnamed/part_007 lines 136-153): temperatures are Go
`int`s, the timestamp is seconds. -/
structure Status where
  probe : ℤ := 0
  probeSet : ℤ := 0
  grill : ℤ := 0
  grillSet : ℤ := 0
  time : ℚ := 0
deriving Repr, DecidableEq, Inhabited

/-- The three-way trend switch shared by the base-rate and recent-rate
computations of `calculateProbeETA` (src/cmd/root.go lines 396-411 and
423-432): rising uses the measured rate, falling uses 1°/hour, stable uses
0.5°/hour. -/
def trendBaseRate (tempChange timeChange : ℚ) : ℚ :=
  if tempChange > 0 then tempChange / timeChange
  else if tempChange < 0 then 1 / 3600
  else (1/2) / 3600

/-- Function `calculateProbeETA` (src/cmd/root.go lines 372-544; the `monitor` method
in src/unnamed/part_007 lines 368-538 is the same computation).  Result in
`ℤ` nanoseconds; `time.Duration(etaSeconds) * time.Second` truncates the
(nonnegative) seconds value.  Callers invoke it only with
`current.probeSet > 0`, so the `float64(current.ProbeSet)` division is by a
nonzero value. -/
def calculateProbeETA (history : List Status) (current : Status) : ℤ :=
  if history.length < 1 then 0
  else
    let first := history.getD 0 default
    if ¬ first.time < current.time then 0
    else
      let tempChange : ℚ := ((current.probe - first.probe : ℤ) : ℚ)
      let timeChange := current.time - first.time
      let baseRate := trendBaseRate tempChange timeChange
      let recentRate : ℚ :=
        if 2 ≤ history.length then
          let recentStart := history.getD (history.length - 2) default
          let recentTempChange : ℚ := ((current.probe - recentStart.probe : ℤ) : ℚ)
          let recentTimeChange := current.time - recentStart.time
          if 0 < recentTimeChange then trendBaseRate recentTempChange recentTimeChange else 0
        else 0
      let rate := if 0 < recentRate then recentRate * (7/10) + baseRate * (3/10) else baseRate
      let grillTempAdjustment : ℚ :=
        if current.grill < current.grillSet then 115/100
        else if current.grill > current.grillSet then 95/100
        else 1
      let tempDifferential : ℚ := ((current.grill - current.probe : ℤ) : ℚ)
      let differentialAdjustment : ℚ :=
        if tempDifferential > 50 then 11/10
        else if tempDifferential < 20 then 8/10
        else if tempDifferential < 10 then 6/10
        else 1
      let cookingProgress : ℚ := (current.probe : ℚ) / (current.probeSet : ℚ)
      let stageAdjustment : ℚ :=
        if cookingProgress < 3/10 then 105/100
        else if cookingProgress > 8/10 then 85/100
        else 1
      let stabilityAdjustment : ℚ :=
        if 0 < recentRate ∧ 0 < baseRate ∧
            (recentRate / baseRate > 3/2 ∨ recentRate / baseRate < 1/2) then 9/10
        else 1
      let adjustedRate :=
        rate * grillTempAdjustment * differentialAdjustment * stageAdjustment * stabilityAdjustment
      let tempRemaining : ℚ := ((current.probeSet - current.probe : ℤ) : ℚ)
      let etaSeconds := tempRemaining / adjustedRate
      if etaSeconds < 0 then 0
      else if etaSeconds > 24 * 3600 then 24 * 3600 * 1000000000
      else ⌊etaSeconds⌋ * 1000000000

/-- The ETA selection of the blending layer, i.e. the body of the
`msg.ProbeSet > 0 && msg.Probe < msg.ProbeSet` block of `status`
(src/cmd/root.go lines 255-274) and of `monitor.Run` (src/unnamed/part_007
lines 308-327).  Returns the chosen ETA and whether the exponential source
was used (`etaSource == "exponential"`). -/
def selectETA (lg : ℚ → ℚ) (pred : Predictor) (history : List Status) (msg : Status) :
    ℤ × Bool :=
  let exponentialETA :=
    if IsInitialized pred = true then EstimateTimeToTarget lg pred (msg.probeSet : ℚ) else 0
  if 0 < exponentialETA ∧ exponentialETA < 24 * 3600 * 1000000000 then (exponentialETA, true)
  else (calculateProbeETA history msg, false)

/-- One observation fed to `Update`, in the argument order of
`Update(probeTemp, timestamp, probeTargetTemp, grillTemp, grillSetTemp)`. -/
structure Obs where
  probeTemp : ℚ
  timestamp : ℚ
  probeTargetTemp : ℚ
  grillTemp : ℚ
  grillSetTemp : ℚ
deriving Repr, DecidableEq, Inhabited

/-- Feed one observation to the predictor. -/
def applyObs (e : ℚ → ℚ) (ep : Predictor) (o : Obs) : Predictor :=
  Update e ep o.probeTemp o.timestamp o.probeTargetTemp o.grillTemp o.grillSetTemp

/-- Feed a whole sequence of observations to a fresh predictor, in order. -/
def runUpdates (e : ℚ → ℚ) (obs : List Obs) : Predictor :=
  obs.foldl (applyObs e) NewExponentialPredictor

/-- Float `≤` on the +∞-extended rationals: `a ≤ b` iff not `b < a`. -/
def optLe (a b : Option ℚ) : Prop := optLt b a = false

/-- Spec-side clamp: `clamp(x, lo, hi)`. -/
def clampQ (x lo hi : ℚ) : ℚ := max lo (min hi x)

/-- Spec-side equilibrium band table, written from the claim's words: the
band is selected by `chamberDelta = chamberTemp − probeTarget` with the four
disjoint conditions `delta > 50`, `20 < delta ≤ 50`, `0 < delta ≤ 20` and
`delta ≤ 0`. -/
def spec_bandEquilibrium (chamberTemp probeTarget : ℚ) : ℚ :=
  let delta := chamberTemp - probeTarget
  if delta > 50 then probeTarget + min (delta * (1/10)) 10
  else if 20 < delta ∧ delta ≤ 50 then probeTarget + delta * (2/10)
  else if 0 < delta ∧ delta ≤ 20 then probeTarget + delta * (5/10)
  else chamberTemp + max (delta * (3/10)) (-20)

/-- Spec-side effective equilibrium, written from the claim's words: the
banded value pulled toward the target by the stability factor
`clamp(1 − |chamberTemp − chamberSetPoint|/50, 0.5, 1.0)`. -/
def spec_effectiveEquilibrium (chamberTemp chamberSetPoint probeTarget : ℚ) : ℚ :=
  let band := spec_bandEquilibrium chamberTemp probeTarget
  let s := clampQ (1 - |chamberTemp - chamberSetPoint| / 50) (1/2) 1
  probeTarget + (band - probeTarget) * s

/-- The mean absolute residual over the last `min n 5` recorded samples,
the value the amended C9 claim ascribes to `GetUncertainty` once at least
3 samples exist. -/
def meanAbsResidual (e : ℚ → ℚ) (ep : Predictor) : ℚ :=
  let n := ep.temperatures.length
  let k := min n 5
  let residuals := (List.range k).map (fun j =>
    |predictAtTime e ep (ep.timestamps.getD (n - k + j) 0) ep.timeConstant -
      ep.temperatures.getD (n - k + j) 0|)
  residuals.sum / (k : ℚ)

/-- Spec-side time-to-target, written from the claim's words: zero if the
most recent recorded temperature is at or above target; if the target
exceeds the effective equilibrium the solve uses the equilibrium as the
target (zero if already there); if `|startTemp − Eq| < 0.1` or the ratio
`(target − Eq)/(startTemp − Eq)` is outside `(0, 1)` the linear fallback's
result is returned without evaluating a logarithm; otherwise
`−τ·ln(ratio)` minus elapsed time since session start, clamped below at
zero and capped at 8 hours.  (Elapsed time is measured at the most recent
recorded timestamp, as the source does.) -/
def spec_estimateTimeToTarget (lg : ℚ → ℚ) (ep : Predictor) (target : ℚ) : ℤ :=
  if ep.initialized = false then 0
  else
    let mostRecent := ep.temperatures.getD (ep.temperatures.length - 1) 0
    if mostRecent ≥ target then 0
    else
      let equilibrium := calculateEffectiveEquilibrium ep.grillTemp ep.grillSetTemp target
      if target > equilibrium ∧ mostRecent ≥ equilibrium then 0
      else
        let solveTarget := if target > equilibrium then equilibrium else target
        let r := (solveTarget - equilibrium) / (ep.startTemp - equilibrium)
        if |ep.startTemp - equilibrium| < 1/10 ∨ r ≤ 0 ∨ r ≥ 1 then
          linearTimeToTarget ep solveTarget
        else
          let solved := -ep.timeConstant * lg r
          let elapsed := ep.timestamps.getD (ep.timestamps.length - 1) 0 - ep.startTime
          ⌊min (max 0 (solved - elapsed)) (8 * 3600) * 1000000000⌋

/-- The temperature change over the window `linearTimeToTarget` uses for its
rate (the last `min(len, 5)` recorded samples): the window's trend is
falling or stable exactly when this is `≤ 0`. -/
def linearWindowTempDiff (ep : Predictor) : ℚ :=
  let recentPoints := if ep.temperatures.length < 5 then ep.temperatures.length else 5
  let startIdx := ep.temperatures.length - recentPoints
  ep.temperatures.getD (ep.temperatures.length - 1) 0 - ep.temperatures.getD startIdx 0

/-- A constant stand-in instantiating the abstract `math.Exp`/`math.Log`
parameter in concrete test states. -/
def constOne : ℚ → ℚ := fun _ => 1

/-- A predictor state with 3 recorded samples whose start temperature equals
the current target (so every retrodiction equals 100 whatever the
exponential evaluates to) and residuals 0, 10, 20. -/
def epResiduals : Predictor :=
  { targetTemp := 100, startTemp := 100, timeConstant := 3600, startTime := 0,
    grillTemp := 225, grillSetTemp := 225,
    temperatures := [100, 90, 80], grillTemps := [225, 225, 225],
    grillSetTemps := [225, 225, 225], timestamps := [0, 60, 120],
    initialized := true, minDataPoints := 3 }

/-- A predictor state whose probe temperature fell from 150 to 140 over its
two samples. -/
def epFalling : Predictor :=
  { targetTemp := 200, startTemp := 150, timeConstant := 3600, startTime := 0,
    grillTemp := 155, grillSetTemp := 155,
    temperatures := [150, 140], grillTemps := [155, 155],
    grillSetTemps := [155, 155], timestamps := [0, 60],
    initialized := true, minDataPoints := 3 }

/-- A predictor state whose probe temperature rose from 100 to 130. -/
def epRising : Predictor :=
  { targetTemp := 200, startTemp := 100, timeConstant := 3600, startTime := 0,
    grillTemp := 250, grillSetTemp := 250,
    temperatures := [100, 130], grillTemps := [250, 250],
    grillSetTemps := [250, 250], timestamps := [0, 600],
    initialized := true, minDataPoints := 3 }

/-- The telemetry message preceding `statusFalling1` in the falling
scenario. -/
def statusFalling0 : Status :=
  { probe := 150, probeSet := 200, grill := 155, grillSet := 155, time := 0 }

/-- The current telemetry message of the falling scenario: the probe dropped
from 150 to 140 over 60 seconds. -/
def statusFalling1 : Status :=
  { probe := 140, probeSet := 200, grill := 155, grillSet := 155, time := 60 }

/-- Twenty-one observations, enough to overflow the 20-entry history cap. -/
def obs21 : List Obs :=
  (List.range 21).map (fun k : ℕ => ⟨100 + (k : ℚ), 60 * (k : ℚ), 200, 250, 250⟩)

/-! ## Helper lemmas -/

lemma optLe_refl (a : Option ℚ) : optLe a a := by
  cases a <;> simp [optLe, optLt]

lemma optLe_of_optLt {a b : Option ℚ} (h : optLt a b = true) : optLe a b := by
  cases a <;> cases b <;> simp_all [optLe, optLt] <;> linarith

lemma optLe_trans {a b c : Option ℚ} (hab : optLe a b) (hbc : optLe b c) : optLe a c := by
  cases a <;> cases b <;> cases c <;> simp_all [optLe, optLt] <;> linarith

/-- Specification of the grid-search fold: the accumulator either survives
unchanged or is replaced by a candidate paired with its own error, and the
final error is a lower bound (in the +∞-extended order) for the initial
error and for every candidate's error. -/
lemma argmin_foldl_spec (f : ℚ → Option ℚ) (l : List ℚ) (acc : ℚ × Option ℚ) :
    (l.foldl (argminStep f) acc = acc ∨
      ((l.foldl (argminStep f) acc).1 ∈ l ∧
        (l.foldl (argminStep f) acc).2 = f (l.foldl (argminStep f) acc).1)) ∧
    optLe (l.foldl (argminStep f) acc).2 acc.2 ∧
    ∀ c ∈ l, optLe (l.foldl (argminStep f) acc).2 (f c) := by
  induction l generalizing acc with
  | nil => exact ⟨Or.inl rfl, optLe_refl _, by simp⟩
  | cons a t ih =>
    have hstep : List.foldl (argminStep f) acc (a :: t)
        = List.foldl (argminStep f) (argminStep f acc a) t := rfl
    rw [hstep]
    obtain ⟨ih1, ih2, ih3⟩ := ih (argminStep f acc a)
    refine ⟨?_, ?_, ?_⟩
    · rcases ih1 with h | h
      · rw [h]
        unfold argminStep
        split_ifs with hc
        · exact Or.inr ⟨List.mem_cons_self a t, rfl⟩
        · exact Or.inl rfl
      · exact Or.inr ⟨List.mem_cons_of_mem _ h.1, h.2⟩
    · refine optLe_trans ih2 ?_
      unfold argminStep
      split_ifs with hc
      · exact optLe_of_optLt hc
      · exact optLe_refl _
    · intro c hc
      rcases List.mem_cons.mp hc with rfl | hmem
      · refine optLe_trans ih2 ?_
        unfold argminStep
        split_ifs with h
        · exact optLe_refl _
        · -- the candidate was rejected, so its error is not below the accumulator's
          simp only [optLe]
          simpa using h
      · exact ih3 c hmem

/-- The fuelled grid loop, started at the `j`-th candidate with enough fuel
left, produces exactly the remaining `96 - j` multiples of 300. -/
lemma tauCandidatesAux_range (m : ℕ) : ∀ fuel j : ℕ, m = 96 - j → j ≤ 96 → m ≤ fuel →
    tauCandidatesAux fuel ((300 * (j + 1) : ℕ) : ℚ)
      = (List.range' j m).map (fun k : ℕ => ((300 * (k + 1) : ℕ) : ℚ)) := by
  induction m with
  | zero =>
    intro fuel j h1 h2 h3
    have hj : j = 96 := by omega
    subst hj
    have hgt : ¬ (((300 * (96 + 1) : ℕ) : ℚ) ≤ 28800) := by norm_num
    cases fuel with
    | zero => simp [tauCandidatesAux]
    | succ f =>
      rw [tauCandidatesAux, if_neg hgt]
      simp
  | succ m ih =>
    intro fuel j h1 h2 h3
    obtain ⟨f, rfl⟩ : ∃ f, fuel = f + 1 := ⟨fuel - 1, by omega⟩
    have hle : ((300 * (j + 1) : ℕ) : ℚ) ≤ 28800 := by
      exact_mod_cast (show (300 * (j + 1) : ℕ) ≤ 28800 by omega)
    rw [tauCandidatesAux, if_pos hle]
    have hnext : ((300 * (j + 1) : ℕ) : ℚ) + 300 = ((300 * ((j + 1) + 1) : ℕ) : ℚ) := by
      push_cast
      ring
    rw [hnext, ih f (j + 1) (by omega) (by omega) (by omega), List.range'_succ]
    rfl

lemma tauCandidates_eq :
    tauCandidates = (List.range 96).map (fun k : ℕ => ((300 * (k + 1) : ℕ) : ℚ)) := by
  have h0 : (300 : ℚ) = ((300 * (0 + 1) : ℕ) : ℚ) := by norm_num
  rw [tauCandidates, h0, tauCandidatesAux_range 96 200 0 rfl (by omega) (by omega),
    List.range_eq_range']

lemma tauCandidates_length : tauCandidates.length = 96 := by
  rw [tauCandidates_eq, List.length_map, List.length_range]

lemma tauCandidates_pos : ∀ q ∈ tauCandidates, (0 : ℚ) < q := by
  intro q hq
  rw [tauCandidates_eq, List.mem_map] at hq
  obtain ⟨k, _, rfl⟩ := hq
  exact_mod_cast (show 0 < 300 * (k + 1) by omega)

lemma updateRecord_startTemp (ep : Predictor) (p t pt g gs : ℚ) :
    (updateRecord ep p t pt g gs).startTemp = ep.startTemp := by
  simp only [updateRecord]; split_ifs <;> rfl

lemma updateRecord_startTime (ep : Predictor) (p t pt g gs : ℚ) :
    (updateRecord ep p t pt g gs).startTime = ep.startTime := by
  simp only [updateRecord]; split_ifs <;> rfl

lemma updateRecord_timeConstant (ep : Predictor) (p t pt g gs : ℚ) :
    (updateRecord ep p t pt g gs).timeConstant = ep.timeConstant := by
  simp only [updateRecord]; split_ifs <;> rfl

lemma updateRecord_initialized (ep : Predictor) (p t pt g gs : ℚ) :
    (updateRecord ep p t pt g gs).initialized = ep.initialized := by
  simp only [updateRecord]; split_ifs <;> rfl

lemma updateRecord_minDataPoints (ep : Predictor) (p t pt g gs : ℚ) :
    (updateRecord ep p t pt g gs).minDataPoints = ep.minDataPoints := by
  simp only [updateRecord]; split_ifs <;> rfl

lemma updateRecord_temperatures (ep : Predictor) (p t pt g gs : ℚ) :
    (updateRecord ep p t pt g gs).temperatures =
      if (ep.temperatures ++ [p]).length > 20 then (ep.temperatures ++ [p]).tail
      else ep.temperatures ++ [p] := by
  simp only [updateRecord]; split_ifs <;> rfl

lemma updateRecord_grillTemps (ep : Predictor) (p t pt g gs : ℚ) :
    (updateRecord ep p t pt g gs).grillTemps =
      if (ep.temperatures ++ [p]).length > 20 then (ep.grillTemps ++ [g]).tail
      else ep.grillTemps ++ [g] := by
  simp only [updateRecord]; split_ifs <;> rfl

lemma updateRecord_grillSetTemps (ep : Predictor) (p t pt g gs : ℚ) :
    (updateRecord ep p t pt g gs).grillSetTemps =
      if (ep.temperatures ++ [p]).length > 20 then (ep.grillSetTemps ++ [gs]).tail
      else ep.grillSetTemps ++ [gs] := by
  simp only [updateRecord]; split_ifs <;> rfl

lemma updateRecord_timestamps (ep : Predictor) (p t pt g gs : ℚ) :
    (updateRecord ep p t pt g gs).timestamps =
      if (ep.temperatures ++ [p]).length > 20 then (ep.timestamps ++ [t]).tail
      else ep.timestamps ++ [t] := by
  simp only [updateRecord]; split_ifs <;> rfl

/-- Method `estimateTimeConstant` only ever changes the time constant, and a changed
time constant is one of the grid candidates. -/
lemma estimateTimeConstant_shape (e : ℚ → ℚ) (ep : Predictor) :
    ∃ τ, estimateTimeConstant e ep = { ep with timeConstant := τ } ∧
      (τ = ep.timeConstant ∨ τ ∈ tauCandidates) := by
  simp only [estimateTimeConstant]
  set startIdx := if ep.temperatures.length > 10 then ep.temperatures.length - 10 else 0 with hsi
  split_ifs with h1 h2
  · exact ⟨ep.timeConstant, rfl, Or.inl rfl⟩
  · refine ⟨_, rfl, ?_⟩
    have hspec := (argmin_foldl_spec
      (fun tau => calculateErrorWithGrillDynamics e ep tau startIdx)
      tauCandidates (ep.timeConstant, (none : Option ℚ))).1
    rcases hspec with h | h
    · rw [h]
      exact Or.inl rfl
    · exact Or.inr h.1
  · exact ⟨ep.timeConstant, rfl, Or.inl rfl⟩

/-- On an already-initialized predictor, `Update` records the observation
and then refits the time constant exactly when the history has reached
`minDataPoints`. -/
lemma Update_initialized (e : ℚ → ℚ) (ep : Predictor) (p t pt g gs : ℚ)
    (h : ep.initialized = true) :
    Update e ep p t pt g gs =
      if (updateRecord ep p t pt g gs).minDataPoints ≤
          (updateRecord ep p t pt g gs).temperatures.length then
        estimateTimeConstant e (updateRecord ep p t pt g gs)
      else updateRecord ep p t pt g gs := by
  simp [Update, h]

lemma drop_append_small {α : Type} (L : List α) (x : α) (n : ℕ) (hL : L.length = n)
    (hn : n + 1 ≤ 20) :
    L.drop (n - 20) ++ [x] = (L ++ [x]).drop (n + 1 - 20) := by
  have h1 : n - 20 = 0 := by omega
  have h2 : n + 1 - 20 = 0 := by omega
  rw [h1, h2, List.drop_zero, List.drop_zero]

lemma drop_append_big {α : Type} (L : List α) (x : α) (n : ℕ) (hL : L.length = n)
    (hn : 20 ≤ n) :
    (L.drop (n - 20) ++ [x]).tail = (L ++ [x]).drop (n + 1 - 20) := by
  have hdl : (L.drop (n - 20)).length = 20 := by rw [List.length_drop, hL]; omega
  have hne : L.drop (n - 20) ≠ [] := by
    intro hnil
    rw [hnil] at hdl
    simp at hdl
  rw [List.tail_append_singleton_of_ne_nil hne, List.tail_drop,
    List.drop_append_eq_append_drop, hL]
  have h1 : n + 1 - 20 - n = 0 := by omega
  have h2 : n - 20 + 1 = n + 1 - 20 := by omega
  rw [h1, h2, List.drop_zero]

/-- Invariant of `runUpdates` on a nonempty observation sequence: the
predictor is initialized with `minDataPoints = 3`, anchored at the first
observation, its four history lists are the per-field projections of the
last 20 observations, and its time constant is either the initial 3600 or a
grid candidate. -/
lemma runUpdates_inv_aux (e : ℚ → ℚ) (obs : List Obs) :
    obs = [] ∨
      ((runUpdates e obs).initialized = true ∧
       (runUpdates e obs).minDataPoints = 3 ∧
       (runUpdates e obs).startTemp = (obs.headD default).probeTemp ∧
       (runUpdates e obs).startTime = (obs.headD default).timestamp ∧
       (runUpdates e obs).temperatures = (obs.map Obs.probeTemp).drop (obs.length - 20) ∧
       (runUpdates e obs).grillTemps = (obs.map Obs.grillTemp).drop (obs.length - 20) ∧
       (runUpdates e obs).grillSetTemps = (obs.map Obs.grillSetTemp).drop (obs.length - 20) ∧
       (runUpdates e obs).timestamps = (obs.map Obs.timestamp).drop (obs.length - 20) ∧
       ((runUpdates e obs).timeConstant = 3600 ∨
         (runUpdates e obs).timeConstant ∈ tauCandidates)) := by
  induction obs using List.reverseRecOn with
  | nil => exact Or.inl rfl
  | append_singleton l a ih =>
    right
    have hsplit : runUpdates e (l ++ [a]) = applyObs e (runUpdates e l) a := by
      simp [runUpdates, List.foldl_append]
    rcases ih with rfl | ⟨ih0, ih1, ih2, ih3, ih4, ih5, ih6, ih7, ih8⟩
    · rw [hsplit]
      simp [runUpdates, applyObs, Update, NewExponentialPredictor]
    · rw [hsplit]
      have hlne : l ≠ [] := by
        intro h
        rw [h] at ih0
        simp [runUpdates, NewExponentialPredictor] at ih0
      have hhead : (l ++ [a]).headD default = l.headD default := by
        cases l with
        | nil => exact absurd rfl hlne
        | cons b t => rfl
      have hlen : (l ++ [a]).length = l.length + 1 := by simp
      have hupd : applyObs e (runUpdates e l) a =
          if (updateRecord (runUpdates e l) a.probeTemp a.timestamp a.probeTargetTemp
                a.grillTemp a.grillSetTemp).minDataPoints ≤
              (updateRecord (runUpdates e l) a.probeTemp a.timestamp a.probeTargetTemp
                a.grillTemp a.grillSetTemp).temperatures.length then
            estimateTimeConstant e (updateRecord (runUpdates e l) a.probeTemp a.timestamp
              a.probeTargetTemp a.grillTemp a.grillSetTemp)
          else updateRecord (runUpdates e l) a.probeTemp a.timestamp a.probeTargetTemp
            a.grillTemp a.grillSetTemp := by
        rw [applyObs, Update_initialized _ _ _ _ _ _ _ ih0]
      obtain ⟨τ, hτ, hτm⟩ : ∃ τ, applyObs e (runUpdates e l) a =
          { updateRecord (runUpdates e l) a.probeTemp a.timestamp a.probeTargetTemp
              a.grillTemp a.grillSetTemp with timeConstant := τ } ∧
          (τ = (updateRecord (runUpdates e l) a.probeTemp a.timestamp a.probeTargetTemp
              a.grillTemp a.grillSetTemp).timeConstant ∨ τ ∈ tauCandidates) := by
        rw [hupd]
        split_ifs
        · exact estimateTimeConstant_shape e _
        · exact ⟨_, rfl, Or.inl rfl⟩
      rw [hτ]
      have hlen0 : (runUpdates e l).temperatures.length = l.length - (l.length - 20) := by
        rw [ih4, List.length_drop, List.length_map]
      rcases lt_or_le l.length 20 with hn | hn
      · -- history not yet full: plain append on every list
        have hcond : ¬ ((runUpdates e l).temperatures ++ [a.probeTemp]).length > 20 := by
          rw [List.length_append, hlen0]
          simp
          omega
        refine ⟨?_, ?_, ?_, ?_, ?_, ?_, ?_, ?_, ?_⟩
        · show (updateRecord _ _ _ _ _ _).initialized = true
          rw [updateRecord_initialized, ih0]
        · show (updateRecord _ _ _ _ _ _).minDataPoints = 3
          rw [updateRecord_minDataPoints, ih1]
        · show (updateRecord _ _ _ _ _ _).startTemp = _
          rw [updateRecord_startTemp, ih2, hhead]
        · show (updateRecord _ _ _ _ _ _).startTime = _
          rw [updateRecord_startTime, ih3, hhead]
        · show (updateRecord _ _ _ _ _ _).temperatures = _
          rw [updateRecord_temperatures, if_neg hcond, ih4, List.map_append, hlen]
          exact drop_append_small _ _ _ (by simp) (by omega)
        · show (updateRecord _ _ _ _ _ _).grillTemps = _
          rw [updateRecord_grillTemps, if_neg hcond, ih5, List.map_append, hlen]
          exact drop_append_small _ _ _ (by simp) (by omega)
        · show (updateRecord _ _ _ _ _ _).grillSetTemps = _
          rw [updateRecord_grillSetTemps, if_neg hcond, ih6, List.map_append, hlen]
          exact drop_append_small _ _ _ (by simp) (by omega)
        · show (updateRecord _ _ _ _ _ _).timestamps = _
          rw [updateRecord_timestamps, if_neg hcond, ih7, List.map_append, hlen]
          exact drop_append_small _ _ _ (by simp) (by omega)
        · show τ = 3600 ∨ τ ∈ tauCandidates
          rcases hτm with h | h
          · rw [h, updateRecord_timeConstant]
            exact ih8
          · exact Or.inr h
      · -- history full: every list evicts its head
        have hcond : ((runUpdates e l).temperatures ++ [a.probeTemp]).length > 20 := by
          rw [List.length_append, hlen0]
          simp
          omega
        refine ⟨?_, ?_, ?_, ?_, ?_, ?_, ?_, ?_, ?_⟩
        · show (updateRecord _ _ _ _ _ _).initialized = true
          rw [updateRecord_initialized, ih0]
        · show (updateRecord _ _ _ _ _ _).minDataPoints = 3
          rw [updateRecord_minDataPoints, ih1]
        · show (updateRecord _ _ _ _ _ _).startTemp = _
          rw [updateRecord_startTemp, ih2, hhead]
        · show (updateRecord _ _ _ _ _ _).startTime = _
          rw [updateRecord_startTime, ih3, hhead]
        · show (updateRecord _ _ _ _ _ _).temperatures = _
          rw [updateRecord_temperatures, if_pos hcond, ih4, List.map_append, hlen]
          exact drop_append_big _ _ _ (by simp) hn
        · show (updateRecord _ _ _ _ _ _).grillTemps = _
          rw [updateRecord_grillTemps, if_pos hcond, ih5, List.map_append, hlen]
          exact drop_append_big _ _ _ (by simp) hn
        · show (updateRecord _ _ _ _ _ _).grillSetTemps = _
          rw [updateRecord_grillSetTemps, if_pos hcond, ih6, List.map_append, hlen]
          exact drop_append_big _ _ _ (by simp) hn
        · show (updateRecord _ _ _ _ _ _).timestamps = _
          rw [updateRecord_timestamps, if_pos hcond, ih7, List.map_append, hlen]
          exact drop_append_big _ _ _ (by simp) hn
        · show τ = 3600 ∨ τ ∈ tauCandidates
          rcases hτm with h | h
          · rw [h, updateRecord_timeConstant]
            exact ih8
          · exact Or.inr h

/-- The one-sided stability clamp of the source equals the spec's two-sided
clamp, because `1 − |g − s|/50` never exceeds 1. -/
lemma clamp_stability (g s : ℚ) :
    (if 1 - |g - s| / 50 < 1/2 then (1 : ℚ)/2 else 1 - |g - s| / 50)
      = max (1/2) (min 1 (1 - |g - s| / 50)) := by
  have h : 1 - |g - s| / 50 ≤ 1 := by
    have := abs_nonneg (g - s); linarith
  rw [min_eq_right h]
  rcases lt_or_le (1 - |g - s| / 50) (1/2) with hlt | hle
  · rw [if_pos hlt, max_eq_left hlt.le]
  · rw [if_neg (not_lt.mpr hle), max_eq_right hle]

/-- The source's cascaded band switch equals the spec's four disjoint-band
table. -/
lemma band_cases (g p : ℚ) :
    (if g - p > 50 then p + min ((g - p) * (1/10)) 10
     else if g - p > 20 then p + (g - p) * (2/10)
     else if g - p > 0 then p + (g - p) * (5/10)
     else g + max ((g - p) * (3/10)) (-20))
    = (if g - p > 50 then p + min ((g - p) * (1/10)) 10
       else if 20 < g - p ∧ g - p ≤ 50 then p + (g - p) * (2/10)
       else if 0 < g - p ∧ g - p ≤ 20 then p + (g - p) * (5/10)
       else g + max ((g - p) * (3/10)) (-20)) := by
  by_cases h50 : g - p > 50
  · rw [if_pos h50, if_pos h50]
  · rw [if_neg h50, if_neg h50]
    by_cases h20 : g - p > 20
    · rw [if_pos h20, if_pos (show 20 < g - p ∧ g - p ≤ 50 from ⟨h20, by linarith [not_lt.mp h50]⟩)]
    · rw [if_neg h20, if_neg (show ¬ (20 < g - p ∧ g - p ≤ 50) from fun hc => h20 hc.1)]
      by_cases h0 : g - p > 0
      · rw [if_pos h0, if_pos (show 0 < g - p ∧ g - p ≤ 20 from ⟨h0, by linarith [not_lt.mp h20]⟩)]
      · rw [if_neg h0, if_neg (show ¬ (0 < g - p ∧ g - p ≤ 20) from fun hc => h0 hc.1)]

/-- The source's sequential "clamp below at zero, then cap at 8 hours"
equals the `min`/`max` form. -/
lemma clamp_seq_eq_minmax (v : ℚ) :
    (if (if v < 0 then (0 : ℚ) else v) > 8 * 3600 then 8 * 3600 else if v < 0 then 0 else v)
      = min (max 0 v) (8 * 3600) := by
  rcases lt_or_le v 0 with hv | hv
  · rw [if_pos hv, max_eq_left hv.le, if_neg (by norm_num), min_eq_left (by norm_num)]
  · rw [if_neg (not_lt.mpr hv), max_eq_right hv]
    rcases le_or_lt v (8 * 3600) with hv2 | hv2
    · rw [if_neg (not_lt.mpr hv2), min_eq_left hv2]
    · rw [if_pos hv2, min_eq_right hv2.le]

/-- Bounds of the shared final clamp of `calculateProbeETA`: whatever the
computed seconds value, the returned duration lies in `[0, 24h]`. -/
lemma eta_clamp_bounds (E : ℚ) :
    0 ≤ (if E < 0 then (0 : ℤ)
         else if E > 24 * 3600 then 24 * 3600 * 1000000000
         else ⌊E⌋ * 1000000000) ∧
    (if E < 0 then (0 : ℤ)
     else if E > 24 * 3600 then 24 * 3600 * 1000000000
     else ⌊E⌋ * 1000000000) ≤ 24 * 3600 * 1000000000 := by
  split_ifs with h1 h2
  · exact ⟨le_refl 0, by norm_num⟩
  · exact ⟨by norm_num, le_refl _⟩
  · have h0 : (0 : ℤ) ≤ ⌊E⌋ := Int.floor_nonneg.mpr (not_lt.mp h1)
    have hf : ⌊E⌋ ≤ 86400 := by
      have hle := Int.floor_le_floor (α := ℚ) (not_lt.mp h2)
      norm_num at hle
      exact hle
    constructor
    · exact mul_nonneg h0 (by norm_num)
    · calc ⌊E⌋ * 1000000000 ≤ 86400 * 1000000000 :=
            mul_le_mul_of_nonneg_right hf (by norm_num)
        _ = 24 * 3600 * 1000000000 := by norm_num

/-- For an initialized predictor, `getCurrentTemperature` is the last
recorded temperature (with `getD` returning the Go zero value on an empty
history). -/
lemma getCurrentTemperature_initialized (ep : Predictor) (h : ep.initialized = true) :
    getCurrentTemperature ep = ep.temperatures.getD (ep.temperatures.length - 1) 0 := by
  rw [getCurrentTemperature]
  by_cases hl : ep.temperatures.length = 0
  · rw [if_pos (Or.inr hl)]
    have hnil : ep.temperatures = [] := List.length_eq_zero.mp hl
    rw [hnil]
    rfl
  · rw [if_neg]
    rintro (hc | hc)
    · rw [h] at hc
      exact Bool.noConfusion hc
    · exact hl hc

/-! ## Claim theorems -/

/-- C1: for every grill temperature `g`, grill set-point `s` and probe
target `p`, `calculateEffectiveEquilibrium g s p` equals the banded value
selected by `chamberDelta = g − p`, pulled toward `p` by the stability
factor `clamp(1 − |g − s|/50, 0.5, 1.0)`. -/
theorem C1_effective_equilibrium_matches_spec (g s p : ℚ) :
    calculateEffectiveEquilibrium g s p = spec_effectiveEquilibrium g s p := by
  simp only [calculateEffectiveEquilibrium, spec_effectiveEquilibrium, spec_bandEquilibrium,
    clampQ]
  rw [band_cases, clamp_stability]

/-- C6: for every sequence of `Update` calls on one predictor instance,
`startTemp` and `startTime` equal the first observation's probe temperature
and timestamp, and no subsequent update changes either field. -/
theorem C6_anchoring_invariant (e : ℚ → ℚ) (o : Obs) (rest : List Obs) :
    (runUpdates e (o :: rest)).startTemp = o.probeTemp ∧
    (runUpdates e (o :: rest)).startTime = o.timestamp := by
  rcases runUpdates_inv_aux e (o :: rest) with h | h
  · exact absurd h (List.cons_ne_nil o rest)
  · exact ⟨by simpa using h.2.2.1, by simpa using h.2.2.2.1⟩

/-- C7: after more than 20 updates, all four history lists have length
exactly 20 and contain the per-field projections of the 20 most recent
observations in arrival order (FIFO eviction of the oldest entry). -/
theorem C7_bounded_history (e : ℚ → ℚ) (obs : List Obs) (h : 20 < obs.length) :
    (runUpdates e obs).temperatures.length = 20 ∧
    (runUpdates e obs).temperatures = (obs.drop (obs.length - 20)).map Obs.probeTemp ∧
    (runUpdates e obs).grillTemps = (obs.drop (obs.length - 20)).map Obs.grillTemp ∧
    (runUpdates e obs).grillSetTemps = (obs.drop (obs.length - 20)).map Obs.grillSetTemp ∧
    (runUpdates e obs).timestamps = (obs.drop (obs.length - 20)).map Obs.timestamp ∧
    (obs.drop (obs.length - 20)).length = 20 := by
  have hne : obs ≠ [] := by
    intro hnil
    rw [hnil] at h
    simp at h
  rcases runUpdates_inv_aux e obs with hcase | hinv
  · exact absurd hcase hne
  · obtain ⟨-, -, -, -, h4, h5, h6, h7, -⟩ := hinv
    have hdl : (obs.drop (obs.length - 20)).length = 20 := by
      rw [List.length_drop]
      omega
    refine ⟨?_, ?_, ?_, ?_, ?_, hdl⟩
    · rw [h4, ← List.map_drop, List.length_map, List.length_drop]
      omega
    · rw [h4, List.map_drop]
    · rw [h5, List.map_drop]
    · rw [h6, List.map_drop]
    · rw [h7, List.map_drop]

/-- C10: before the first `Update` call, every query operation returns its
fixed neutral value: `PredictTemperature` 0, `GetCurrentState` (0, 0),
`EstimateTimeToTarget` 0, `GetUncertainty` 5.0.  (The queries are pure
state-to-value functions in this embedding, so none mutates state.) -/
theorem C10_uninitialized_defaults (e lg : ℚ → ℚ) (ep : Predictor) (t now target : ℚ)
    (h : ep.initialized = false) :
    PredictTemperature e ep t = 0 ∧
    GetCurrentState e ep now = (0, 0) ∧
    EstimateTimeToTarget lg ep target = 0 ∧
    GetUncertainty e ep = 5 := by
  refine ⟨?_, ?_, ?_, ?_⟩
  · simp [PredictTemperature, predictAtTimeWithGrillDynamics, h]
  · simp [GetCurrentState, h]
  · simp [EstimateTimeToTarget, h]
  · simp [GetUncertainty, h]

theorem C10_witness :
    NewExponentialPredictor.initialized = false ∧
    (PredictTemperature constOne NewExponentialPredictor 0 = 0 ∧
     GetCurrentState constOne NewExponentialPredictor 0 = (0, 0) ∧
     EstimateTimeToTarget constOne NewExponentialPredictor 0 = 0 ∧
     GetUncertainty constOne NewExponentialPredictor = 5) :=
  ⟨rfl, C10_uninitialized_defaults constOne constOne NewExponentialPredictor 0 0 0 rfl⟩

/-- C5: the blending layer reports the exponential model's ETA if and only
if the model is initialized and that ETA is strictly between 0 and 24
hours; in every other case it reports the linear fallback's result. -/
theorem C5_blending_choice (lg : ℚ → ℚ) (pred : Predictor) (history : List Status)
    (msg : Status) :
    ((selectETA lg pred history msg).2 = true ↔
      (pred.initialized = true ∧
        0 < EstimateTimeToTarget lg pred (msg.probeSet : ℚ) ∧
        EstimateTimeToTarget lg pred (msg.probeSet : ℚ) < 24 * 3600 * 1000000000)) ∧
    ((selectETA lg pred history msg).2 = true →
      (selectETA lg pred history msg).1 = EstimateTimeToTarget lg pred (msg.probeSet : ℚ)) ∧
    ((selectETA lg pred history msg).2 = false →
      (selectETA lg pred history msg).1 = calculateProbeETA history msg) := by
  by_cases hinit : pred.initialized = true
  · simp only [selectETA, IsInitialized, if_pos hinit]
    by_cases hcond : 0 < EstimateTimeToTarget lg pred (msg.probeSet : ℚ) ∧
        EstimateTimeToTarget lg pred (msg.probeSet : ℚ) < 24 * 3600 * 1000000000
    · rw [if_pos hcond]
      refine ⟨?_, fun _ => rfl, ?_⟩
      · exact ⟨fun _ => ⟨hinit, hcond.1, hcond.2⟩, fun _ => rfl⟩
      · intro hfalse
        simp at hfalse
    · rw [if_neg hcond]
      refine ⟨?_, ?_, fun _ => rfl⟩
      · constructor
        · intro hfalse
          simp at hfalse
        · rintro ⟨-, h1, h2⟩
          exact absurd ⟨h1, h2⟩ hcond
      · intro hfalse
        simp at hfalse
  · simp only [selectETA, IsInitialized, if_neg hinit]
    rw [if_neg (by simp : ¬ ((0 : ℤ) < 0 ∧ (0 : ℤ) < 24 * 3600 * 1000000000))]
    refine ⟨?_, ?_, fun _ => rfl⟩
    · constructor
      · intro hfalse
        simp at hfalse
      · rintro ⟨hi, -⟩
        exact absurd hi hinit
    · intro hfalse
      simp at hfalse

/-- C2: for every initialized predictor state, `EstimateTimeToTarget`
returns zero if the most recent recorded temperature is at or above target;
clamps an unreachable target to the effective equilibrium (zero if already
there); falls back to the linear estimator, without evaluating a logarithm,
when `|startTemp − Eq| < 0.1` or the ratio is outside `(0, 1)`; and
otherwise returns `−τ·ln(ratio)` minus elapsed time since session start,
clamped below at zero and capped at 8 hours. -/
theorem C2_time_to_target_matches_spec (lg : ℚ → ℚ) (ep : Predictor) (target : ℚ)
    (h : ep.initialized = true) :
    EstimateTimeToTarget lg ep target = spec_estimateTimeToTarget lg ep target := by
  have hni : ¬ (ep.initialized = false) := by simp [h]
  simp only [EstimateTimeToTarget, spec_estimateTimeToTarget]
  rw [if_neg hni, if_neg hni, getCurrentTemperature_initialized ep h]
  by_cases h1 : ep.temperatures.getD (ep.temperatures.length - 1) 0 ≥ target
  · rw [if_pos h1, if_pos h1]
  · rw [if_neg h1, if_neg h1]
    by_cases h2 : target > calculateEffectiveEquilibrium ep.grillTemp ep.grillSetTemp target ∧
        ep.temperatures.getD (ep.temperatures.length - 1) 0 ≥
          calculateEffectiveEquilibrium ep.grillTemp ep.grillSetTemp target
    · rw [if_pos h2, if_pos h2]
    · rw [if_neg h2, if_neg h2]
      by_cases h3 : |ep.startTemp - calculateEffectiveEquilibrium ep.grillTemp ep.grillSetTemp
          target| < 1/10
      · rw [if_pos h3, if_pos (Or.inl h3)]
      · rw [if_neg h3]
        by_cases h4 : ((if target > calculateEffectiveEquilibrium ep.grillTemp ep.grillSetTemp
              target then calculateEffectiveEquilibrium ep.grillTemp ep.grillSetTemp target
            else target) - calculateEffectiveEquilibrium ep.grillTemp ep.grillSetTemp target) /
              (ep.startTemp - calculateEffectiveEquilibrium ep.grillTemp ep.grillSetTemp target)
              ≤ 0 ∨
            ((if target > calculateEffectiveEquilibrium ep.grillTemp ep.grillSetTemp target then
              calculateEffectiveEquilibrium ep.grillTemp ep.grillSetTemp target else target) -
              calculateEffectiveEquilibrium ep.grillTemp ep.grillSetTemp target) /
              (ep.startTemp - calculateEffectiveEquilibrium ep.grillTemp ep.grillSetTemp target)
              ≥ 1
        · rw [if_pos h4, if_pos (Or.inr h4)]
        · have hng : ¬ (|ep.startTemp - calculateEffectiveEquilibrium ep.grillTemp
              ep.grillSetTemp target| < 1/10 ∨
              ((if target > calculateEffectiveEquilibrium ep.grillTemp ep.grillSetTemp
                  target then calculateEffectiveEquilibrium ep.grillTemp ep.grillSetTemp target
                else target) - calculateEffectiveEquilibrium ep.grillTemp ep.grillSetTemp target) /
                (ep.startTemp - calculateEffectiveEquilibrium ep.grillTemp ep.grillSetTemp target)
                ≤ 0 ∨
              ((if target > calculateEffectiveEquilibrium ep.grillTemp ep.grillSetTemp target then
                calculateEffectiveEquilibrium ep.grillTemp ep.grillSetTemp target else target) -
                calculateEffectiveEquilibrium ep.grillTemp ep.grillSetTemp target) /
                (ep.startTemp - calculateEffectiveEquilibrium ep.grillTemp ep.grillSetTemp target)
                ≥ 1) := fun hc => hc.elim h3 h4
          rw [if_neg h4, if_neg hng, clamp_seq_eq_minmax]

theorem C2_witness :
    epRising.initialized = true ∧
    EstimateTimeToTarget constOne epRising 200 = spec_estimateTimeToTarget constOne epRising 200 :=
  ⟨rfl, C2_time_to_target_matches_spec constOne epRising 200 rfl⟩

/-- C3 counterexample: the loop `for tau := 300; tau <= 28800; tau += 300`
evaluates 96 candidates, not 97. -/
theorem C3_counterexample_grid_size :
    tauCandidates.length = 96 ∧ ¬ tauCandidates.length = 97 := by
  rw [tauCandidates_length]
  exact ⟨rfl, by omega⟩

/-- C3 (amended: 96 candidates, not 97): once at least `minDataPoints = 3`
samples exist, every update re-estimates the time constant by grid search
over the 96 candidates `300, 600, …, 28800`; the minimizing candidate
replaces the current τ only if its mean squared error (over at most the
last 10 samples, each with its own historical grill readings — the
definition of `calculateErrorWithGrillDynamics`) is below 90% of the
current τ's error; τ is 3600 after the first update and stays strictly
positive after every update. -/
theorem C3_time_constant_estimation (e : ℚ → ℚ) :
    tauCandidates = (List.range 96).map (fun k : ℕ => ((300 * (k + 1) : ℕ) : ℚ)) ∧
    tauCandidates.length = 96 ∧
    (∀ (ep : Predictor) (p t pt g gs : ℚ), ep.initialized = true →
      Update e ep p t pt g gs =
        if (updateRecord ep p t pt g gs).minDataPoints ≤
            (updateRecord ep p t pt g gs).temperatures.length then
          estimateTimeConstant e (updateRecord ep p t pt g gs)
        else updateRecord ep p t pt g gs) ∧
    (∀ ep : Predictor, ep.temperatures.length < ep.minDataPoints →
      estimateTimeConstant e ep = ep) ∧
    (∀ ep : Predictor, ep.minDataPoints ≤ ep.temperatures.length →
      estimateTimeConstant e ep = ep ∨
        (∃ τb, estimateTimeConstant e ep = { ep with timeConstant := τb } ∧
          τb ∈ tauCandidates ∧
          (∀ c ∈ tauCandidates,
            optLe
              (calculateErrorWithGrillDynamics e ep τb
                (if ep.temperatures.length > 10 then ep.temperatures.length - 10 else 0))
              (calculateErrorWithGrillDynamics e ep c
                (if ep.temperatures.length > 10 then ep.temperatures.length - 10 else 0))) ∧
          optLtScaled
            (calculateErrorWithGrillDynamics e ep τb
              (if ep.temperatures.length > 10 then ep.temperatures.length - 10 else 0))
            (calculateErrorWithGrillDynamics e ep ep.timeConstant
              (if ep.temperatures.length > 10 then ep.temperatures.length - 10 else 0))
            = true)) ∧
    (∀ o : Obs, (runUpdates e [o]).timeConstant = 3600) ∧
    (∀ (o : Obs) (rest : List Obs), 0 < (runUpdates e (o :: rest)).timeConstant) := by
  refine ⟨tauCandidates_eq, tauCandidates_length, ?_, ?_, ?_, ?_, ?_⟩
  · intro ep p t pt g gs h
    exact Update_initialized e ep p t pt g gs h
  · intro ep h
    rw [estimateTimeConstant, if_pos h]
  · intro ep h
    simp only [estimateTimeConstant]
    rw [if_neg (not_lt.mpr h)]
    set SI := if ep.temperatures.length > 10 then ep.temperatures.length - 10 else 0 with hSI
    obtain ⟨hdisj, hmono, hmin⟩ := argmin_foldl_spec
      (fun tau => calculateErrorWithGrillDynamics e ep tau SI)
      tauCandidates (ep.timeConstant, none)
    split_ifs with hacc
    · right
      rcases hdisj with hb | ⟨hmem, heq⟩
      · rw [hb] at hacc
        simp [optLtScaled] at hacc
      · refine ⟨_, rfl, hmem, ?_, ?_⟩
        · intro c hc
          have hx := hmin c hc
          rwa [heq] at hx
        · rwa [heq] at hacc
    · left
      rfl
  · intro o
    simp [runUpdates, applyObs, Update, NewExponentialPredictor]
  · intro o rest
    rcases runUpdates_inv_aux e (o :: rest) with hc | hinv
    · exact absurd hc (List.cons_ne_nil o rest)
    · rcases hinv.2.2.2.2.2.2.2.2 with h36 | hmem
      · rw [h36]
        norm_num
      · exact tauCandidates_pos _ hmem

theorem C3_witness :
    epResiduals.minDataPoints ≤ epResiduals.temperatures.length ∧
    (estimateTimeConstant constOne epResiduals = epResiduals ∨
      (∃ τb, estimateTimeConstant constOne epResiduals = { epResiduals with timeConstant := τb } ∧
        τb ∈ tauCandidates ∧
        (∀ c ∈ tauCandidates,
          optLe
            (calculateErrorWithGrillDynamics constOne epResiduals τb
              (if epResiduals.temperatures.length > 10 then
                epResiduals.temperatures.length - 10 else 0))
            (calculateErrorWithGrillDynamics constOne epResiduals c
              (if epResiduals.temperatures.length > 10 then
                epResiduals.temperatures.length - 10 else 0))) ∧
        optLtScaled
          (calculateErrorWithGrillDynamics constOne epResiduals τb
            (if epResiduals.temperatures.length > 10 then
              epResiduals.temperatures.length - 10 else 0))
          (calculateErrorWithGrillDynamics constOne epResiduals epResiduals.timeConstant
            (if epResiduals.temperatures.length > 10 then
              epResiduals.temperatures.length - 10 else 0))
          = true)) :=
  ⟨by decide, (C3_time_constant_estimation constOne).2.2.2.2.1 epResiduals (by decide)⟩

/-- C4 counterexample: on a falling history the exponential model's internal
fallback returns zero, while the blending-layer heuristic on the same data
returns the 24-hour cap — the two copies do not implement the same
algorithm, and the internal copy does return zero. -/
theorem C4_counterexample :
    linearWindowTempDiff epFalling ≤ 0 ∧
    linearTimeToTarget epFalling 200 = 0 ∧
    calculateProbeETA [statusFalling0] statusFalling1 = 24 * 3600 * 1000000000 := by
  refine ⟨?_, ?_, ?_⟩
  · norm_num [linearWindowTempDiff, epFalling]
  · norm_num [linearTimeToTarget, epFalling]
  · norm_num [calculateProbeETA, trendBaseRate, statusFalling0, statusFalling1]

/-- C4 (amended): the two copies of the linear fallback differ.  The
blending-layer heuristic `calculateProbeETA` maps falling and stable base
trends to tiny synthetic rates (1°/hour and 0.5°/hour) and always returns a
value in `[0, 24h]`; the copy inside the exponential model,
`linearTimeToTarget`, instead returns zero whenever its window's
temperature trend is falling or stable. -/
theorem C4_linear_fallback_copies_differ :
    (∀ (ep : Predictor) (target : ℚ), linearWindowTempDiff ep ≤ 0 →
      linearTimeToTarget ep target = 0) ∧
    (∀ tc t : ℚ, tc < 0 → trendBaseRate tc t = 1 / 3600) ∧
    (∀ t : ℚ, trendBaseRate 0 t = (1/2) / 3600) ∧
    (∀ (history : List Status) (current : Status),
      0 ≤ calculateProbeETA history current ∧
        calculateProbeETA history current ≤ 24 * 3600 * 1000000000) := by
  refine ⟨?_, ?_, ?_, ?_⟩
  · intro ep target h
    simp only [linearWindowTempDiff] at h
    simp only [linearTimeToTarget]
    rcases lt_or_le ep.temperatures.length 2 with h1 | h1
    · rw [if_pos h1]
    · rw [if_neg (not_lt.mpr h1), if_pos (Or.inr h)]
  · intro tc t h
    rw [trendBaseRate, if_neg (by linarith), if_pos h]
  · intro t
    rw [trendBaseRate, if_neg (by norm_num), if_neg (by norm_num)]
  · intro history current
    simp only [calculateProbeETA]
    rcases lt_or_le history.length 1 with g1 | g1
    · rw [if_pos g1]
      exact ⟨le_refl 0, by norm_num⟩
    · rw [if_neg (not_lt.mpr g1)]
      by_cases g2 : (history.getD 0 default).time < current.time
      · rw [if_neg (not_not_intro g2)]
        exact eta_clamp_bounds _
      · rw [if_pos g2]
        exact ⟨le_refl 0, by norm_num⟩

theorem C4_witness :
    linearWindowTempDiff epFalling ≤ 0 ∧ linearTimeToTarget epFalling 200 = 0 :=
  ⟨by norm_num [linearWindowTempDiff, epFalling],
   C4_linear_fallback_copies_differ.1 epFalling 200
     (by norm_num [linearWindowTempDiff, epFalling])⟩

/-- C8 counterexample: with the probe target fixed at 0 and the chamber
set-point fixed at 100, raising the chamber temperature from 100 to 200 —
both inside the `chamberDelta > 50` band — lowers the effective equilibrium
from 10 to 5, because the stability factor drops from 1 to 0.5. -/
theorem C8_counterexample :
    (100 : ℚ) - 0 > 50 ∧ (200 : ℚ) - 0 > 50 ∧ (100 : ℚ) ≤ 200 ∧
    calculateEffectiveEquilibrium 200 100 0 < calculateEffectiveEquilibrium 100 100 0 := by
  refine ⟨by norm_num, by norm_num, by norm_num, ?_⟩
  norm_num [calculateEffectiveEquilibrium, min_def, abs_of_nonneg]

/-- C8 (amended): for every fixed probeTarget, and with the chamber
set-point moving along with the chamber temperature (fixed offset
`c = chamberTemp − chamberSetPoint`, hence a fixed stability factor), the
effective equilibrium is non-decreasing in chamberTemp within each of the
four `chamberDelta` bands.  As originally stated — with the set-point held
constant — the claim is false, because raising the chamber temperature can
shrink the stability factor and with it the equilibrium (see the
counterexample). -/
theorem C8_monotone_in_band (p c g1 g2 : ℚ) (hg : g1 ≤ g2)
    (hband : (g1 - p > 50 ∧ g2 - p > 50) ∨
             (g1 - p > 20 ∧ g1 - p ≤ 50 ∧ g2 - p > 20 ∧ g2 - p ≤ 50) ∨
             (g1 - p > 0 ∧ g1 - p ≤ 20 ∧ g2 - p > 0 ∧ g2 - p ≤ 20) ∨
             (g1 - p ≤ 0 ∧ g2 - p ≤ 0)) :
    calculateEffectiveEquilibrium g1 (g1 - c) p ≤ calculateEffectiveEquilibrium g2 (g2 - c) p := by
  simp only [calculateEffectiveEquilibrium]
  rw [show g1 - (g1 - c) = c from by ring, show g2 - (g2 - c) = c from by ring]
  have hs : (0 : ℚ) ≤ (if 1 - |c| / 50 < 1/2 then (1 : ℚ)/2 else 1 - |c| / 50) := by
    split_ifs with hc
    · norm_num
    · linarith [not_lt.mp hc]
  have hB : (if g1 - p > 50 then p + min ((g1 - p) * (1/10)) 10
      else if g1 - p > 20 then p + (g1 - p) * (2/10)
      else if g1 - p > 0 then p + (g1 - p) * (5/10)
      else g1 + max ((g1 - p) * (3/10)) (-20))
      ≤ (if g2 - p > 50 then p + min ((g2 - p) * (1/10)) 10
      else if g2 - p > 20 then p + (g2 - p) * (2/10)
      else if g2 - p > 0 then p + (g2 - p) * (5/10)
      else g2 + max ((g2 - p) * (3/10)) (-20)) := by
    rcases hband with ⟨ha, hb⟩ | ⟨ha1, ha2, hb1, hb2⟩ | ⟨ha1, ha2, hb1, hb2⟩ | ⟨ha, hb⟩
    · rw [if_pos ha, if_pos hb]
      exact add_le_add_left (min_le_min (by linarith) (le_refl 10)) p
    · rw [if_neg (not_lt.mpr ha2), if_pos ha1, if_neg (not_lt.mpr hb2), if_pos hb1]
      linarith
    · rw [if_neg (not_lt.mpr (by linarith : g1 - p ≤ 50)), if_neg (not_lt.mpr ha2),
        if_pos ha1, if_neg (not_lt.mpr (by linarith : g2 - p ≤ 50)),
        if_neg (not_lt.mpr hb2), if_pos hb1]
      linarith
    · rw [if_neg (not_lt.mpr (by linarith : g1 - p ≤ 50)),
        if_neg (not_lt.mpr (by linarith : g1 - p ≤ 20)), if_neg (not_lt.mpr ha),
        if_neg (not_lt.mpr (by linarith : g2 - p ≤ 50)),
        if_neg (not_lt.mpr (by linarith : g2 - p ≤ 20)), if_neg (not_lt.mpr hb)]
      exact add_le_add hg (max_le_max (by linarith) (le_refl _))
  exact add_le_add_left (mul_le_mul_of_nonneg_right (sub_le_sub_right hB p) hs) p

theorem C8_witness :
    ((60 : ℚ) ≤ 70) ∧ ((60 : ℚ) - 0 > 50 ∧ (70 : ℚ) - 0 > 50) ∧
    calculateEffectiveEquilibrium 60 (60 - 0) 0 ≤ calculateEffectiveEquilibrium 70 (70 - 0) 0 :=
  ⟨by norm_num, by norm_num,
   C8_monotone_in_band 0 0 60 70 (by norm_num) (Or.inl (by norm_num))⟩

/-- C9 counterexample: a state with 3 recorded samples (so fewer than 5 are
residual-eligible) on which `GetUncertainty` returns 10, the mean of the
residuals 0, 10, 20 — not the claimed 2.0. -/
theorem C9_counterexample :
    3 ≤ epResiduals.temperatures.length ∧ epResiduals.temperatures.length < 5 ∧
    ¬ GetUncertainty constOne epResiduals = 2 ∧ GetUncertainty constOne epResiduals = 10 := by
  have h10 : GetUncertainty constOne epResiduals = 10 := by
    have hr : List.range 5 = [0, 1, 2, 3, 4] := by decide
    have ht2 : (2 : ℤ).toNat = 2 := rfl
    norm_num [GetUncertainty, predictAtTime, epResiduals, constOne, hr, List.getD, ht2]
  refine ⟨by decide, by decide, ?_, h10⟩
  rw [h10]
  norm_num

/-- C9 (amended): `GetUncertainty` returns 5.0 when the predictor is
uninitialized or fewer than 3 samples exist; otherwise it returns the mean
absolute residual over the last `min(n, 5)` recorded samples.  With 3 or 4
samples it therefore averages the 3 or 4 available residuals; the claimed
2.0 value is only reachable with zero residual-eligible samples, which
cannot happen once 3 samples exist. -/
theorem C9_uncertainty_mean_residual (e : ℚ → ℚ) :
    (∀ ep : Predictor, ep.initialized = false ∨ ep.temperatures.length < 3 →
      GetUncertainty e ep = 5) ∧
    (∀ ep : Predictor, ep.initialized = true → 3 ≤ ep.temperatures.length →
      GetUncertainty e ep = meanAbsResidual e ep) := by
  constructor
  · intro ep hcond
    rw [GetUncertainty, if_pos hcond]
  · intro ep h0 h3
    have hni : ¬ (ep.initialized = false ∨ ep.temperatures.length < 3) := by
      rintro (hc | hc)
      · rw [h0] at hc
        exact Bool.noConfusion hc
      · omega
    have hr : List.range 5 = [0, 1, 2, 3, 4] := by decide
    simp only [GetUncertainty, meanAbsResidual, hr]
    rw [if_neg hni]
    rcases le_or_lt 5 ep.temperatures.length with h5 | h5
    · have hmin : min ep.temperatures.length 5 = 5 := min_eq_right h5
      have hc0 : (0 : ℤ) ≤ (ep.temperatures.length : ℤ) - 5 := by omega
      have hc1 : (0 : ℤ) ≤ (ep.temperatures.length : ℤ) - 5 + 1 := by omega
      have hc2 : (0 : ℤ) ≤ (ep.temperatures.length : ℤ) - 5 + 2 := by omega
      have hc3 : (0 : ℤ) ≤ (ep.temperatures.length : ℤ) - 5 + 3 := by omega
      have hc4 : (0 : ℤ) ≤ (ep.temperatures.length : ℤ) - 5 + 4 := by omega
      have he0 : ((ep.temperatures.length : ℤ) - 5).toNat = ep.temperatures.length - 5 := by
        omega
      have he1 : ((ep.temperatures.length : ℤ) - 5 + 1).toNat = ep.temperatures.length - 5 + 1 :=
        by omega
      have he2 : ((ep.temperatures.length : ℤ) - 5 + 2).toNat = ep.temperatures.length - 5 + 2 :=
        by omega
      have he3 : ((ep.temperatures.length : ℤ) - 5 + 3).toNat = ep.temperatures.length - 5 + 3 :=
        by omega
      have he4 : ((ep.temperatures.length : ℤ) - 5 + 4).toNat = ep.temperatures.length - 5 + 4 :=
        by omega
      rw [hmin, hr]
      norm_num [hc0, hc1, hc2, hc3, hc4, he0, he1, he2, he3, he4]
    · have hr3 : List.range 3 = [0, 1, 2] := by decide
      have hr4 : List.range 4 = [0, 1, 2, 3] := by decide
      have ht2 : (2 : ℤ).toNat = 2 := rfl
      have ht3 : (3 : ℤ).toNat = 3 := rfl
      have h34 : ep.temperatures.length = 3 ∨ ep.temperatures.length = 4 := by omega
      rcases h34 with h34 | h34 <;> rw [h34] <;> norm_num [hr3, hr4, ht2, ht3]

theorem C9_witness :
    epResiduals.initialized = true ∧ 3 ≤ epResiduals.temperatures.length ∧
    GetUncertainty constOne epResiduals = meanAbsResidual constOne epResiduals :=
  ⟨rfl, by decide,
   (C9_uncertainty_mean_residual constOne).2 epResiduals rfl (by decide)⟩

theorem C7_witness :
    20 < obs21.length ∧
    ((runUpdates constOne obs21).temperatures.length = 20 ∧
     (runUpdates constOne obs21).temperatures =
       (obs21.drop (obs21.length - 20)).map Obs.probeTemp ∧
     (runUpdates constOne obs21).grillTemps =
       (obs21.drop (obs21.length - 20)).map Obs.grillTemp ∧
     (runUpdates constOne obs21).grillSetTemps =
       (obs21.drop (obs21.length - 20)).map Obs.grillSetTemp ∧
     (runUpdates constOne obs21).timestamps =
       (obs21.drop (obs21.length - 20)).map Obs.timestamp ∧
     (obs21.drop (obs21.length - 20)).length = 20) :=
  ⟨by simp [obs21], C7_bounded_history constOne obs21 (by simp [obs21])⟩

theorem C5_witness :
    (selectETA constOne NewExponentialPredictor [] statusFalling1).2 = false ∧
    (selectETA constOne NewExponentialPredictor [] statusFalling1).1 =
      calculateProbeETA [] statusFalling1 := by
  have hf : (selectETA constOne NewExponentialPredictor [] statusFalling1).2 = false := by
    norm_num [selectETA, IsInitialized, NewExponentialPredictor]
  exact ⟨hf,
    (C5_blending_choice constOne NewExponentialPredictor [] statusFalling1).2.2 hf⟩

end Wifire
